import Mathlib

/-!
Verification of the SecureScan AI scan-to-verdict pipeline.

Shallow embedding of the repository's core logic:
* `Utils.getRiskLevel`   — the client-side risk classifier (src/utils.ts).
* `Server.getRiskLevel`  — the server-side risk classifier (server.ts).
* `serverHandler`        — the POST /api/analyze handler (server.ts),
  parameterised by the outcome of the AI-backend call.
* `analyzeUrl`           — the Assessment Client (services/gemini.ts),
  parameterised by the outcome of the fetch.
* `mkScanResult`         — the ScanResult construction with JS truthiness
  defaults in `handleScan` (App.tsx lines 129-138).
* `handleScan`           — the scan pipeline (App.tsx lines 102-154).
* `record` / `recordAll` — the history prepend-and-truncate update.
* `loadState`            — the startup rehydration initializer (App.tsx
  lines 75-92).

JavaScript machine numbers are modelled as `Int` (all scores in play are
integers); JS falsy-coalescing `x || d` is modelled by `jsOrNum` /
`jsOrStr` (0, the empty string and `undefined` are falsy; arrays and the
nonempty risk-level strings are always truthy, so for those `Option.getD`
is exact).
-/

/-- The three risk levels; `highRisk` embeds the string literal
`high-risk` of the source. -/
inductive RiskLevel
  | safe
  | suspicious
  | highRisk
deriving DecidableEq

namespace Utils

/-- Client-side classifier, transcribed from src/utils.ts lines 21-25. -/
def getRiskLevel (score : Int) : RiskLevel :=
  if score < 30 then .safe
  else if score < 70 then .suspicious
  else .highRisk

end Utils

namespace Server

/-- Server-side classifier, transcribed from server.ts lines 29-33. -/
def getRiskLevel (score : Int) : RiskLevel :=
  if score < 30 then .safe
  else if score < 70 then .suspicious
  else .highRisk

end Server

/-- ScanResult record (src/types.ts). -/
structure ScanResult where
  id : String
  url : String
  timestamp : Int
  riskScore : Int
  riskLevel : RiskLevel
  indicators : List String
  recommendation : String
  analysis : String
deriving DecidableEq

/-- The four screens of AppState (src/types.ts). -/
inductive Screen
  | home
  | scanning
  | result
  | history
deriving DecidableEq

/-- AppState (src/types.ts): screen, optional current result, history,
blocked URLs. -/
structure AppState where
  screen : Screen
  currentResult : Option ScanResult
  history : List ScanResult
  blockedUrls : List String
deriving DecidableEq

/-- JS `x || d` for a possibly-missing number: `undefined` and `0` are
falsy. -/
def jsOrNum (x : Option Int) (d : Int) : Int :=
  match x with
  | none => d
  | some v => if v = 0 then d else v

/-- JS `x || d` for a possibly-missing string: `undefined` and `""` are
falsy. -/
def jsOrStr (x : Option String) (d : String) : String :=
  match x with
  | none => d
  | some v => if v = "" then d else v

/-- C2: for every integer score, the classifier returns `safe` iff the
score is below 30, `suspicious` iff it lies in [30, 70), and `high-risk`
iff it is at least 70; the boundary scores 29, 30, 69 and 70 classify as
safe, suspicious, suspicious and high-risk respectively. -/
theorem getRiskLevel_classifies :
    (∀ s : Int,
      (Utils.getRiskLevel s = .safe ↔ s < 30) ∧
      (Utils.getRiskLevel s = .suspicious ↔ 30 ≤ s ∧ s < 70) ∧
      (Utils.getRiskLevel s = .highRisk ↔ 70 ≤ s)) ∧
    Utils.getRiskLevel 29 = .safe ∧
    Utils.getRiskLevel 30 = .suspicious ∧
    Utils.getRiskLevel 69 = .suspicious ∧
    Utils.getRiskLevel 70 = .highRisk := by
  refine ⟨fun s => ?_, by decide, by decide, by decide, by decide⟩
  unfold Utils.getRiskLevel
  split_ifs with h1 h2 <;>
    refine ⟨⟨fun _ => ?_, fun _ => ?_⟩, ⟨fun h => ?_, fun h => ?_⟩,
      ⟨fun h => ?_, fun h => ?_⟩⟩ <;>
    first
      | omega
      | rfl
      | simp_all

/-- C9: the client-side and server-side copies of the risk classifier are
identical as functions on integer scores. -/
theorem getRiskLevel_client_eq_server :
    ∀ s : Int, Utils.getRiskLevel s = Server.getRiskLevel s :=
  fun _ => rfl

/-- A Partial ScanResult-shaped JSON body exchanged between the
Assessment Service and the Assessment Client: each field may be absent. -/
structure RespBody where
  riskScore : Option Int
  riskLevel : Option RiskLevel
  indicators : Option (List String)
  recommendation : Option String
  analysis : Option String
deriving DecidableEq

/-- The body with every field absent; also stands for the projection of
the 400 error body, whose only field is an error message, onto the
ScanResult shape (the client never reads it, having thrown on a non-ok
status first). -/
def RespBody.none5 : RespBody := ⟨none, none, none, none, none⟩

/-- The object obtained by JSON-parsing the AI backend text: the four
schema fields, each possibly absent. -/
structure GenData where
  riskScore : Option Int
  indicators : Option (List String)
  recommendation : Option String
  analysis : Option String
deriving DecidableEq

/-- Possible outcomes of the `ai.models.generateContent` call in
server.ts: the call throws, the response text is empty or undefined
(so `response.text || "\x7b\x7d"` parses to the empty object), the text
is present but not valid JSON (`JSON.parse` throws), or the text parses
to an object `d`. -/
inductive AIOutcome
  | throws
  | emptyText
  | badJson
  | json (d : GenData)
deriving DecidableEq

/-- The fixed degraded-mode body of the server's catch branch
(server.ts lines 83-89). Note the indicator reads "server error". -/
def serverFallbackBody : RespBody :=
  { riskScore := some 50
    riskLevel := some .suspicious
    indicators := some ["Analysis failed due to server error"]
    recommendation := some "Proceed with extreme caution. Manual verification required."
    analysis := some "We were unable to complete the AI-powered deep scan at this time." }

/-- The 200 body of the success branch: the parsed data spread, with
`riskLevel := getRiskLevel (data.riskScore || 0)` attached
(server.ts lines 76-80). -/
def successBody (d : GenData) : RespBody :=
  { riskScore := d.riskScore
    riskLevel := some (Server.getRiskLevel (jsOrNum d.riskScore 0))
    indicators := d.indicators
    recommendation := d.recommendation
    analysis := d.analysis }

/-- The POST /api/analyze handler (server.ts lines 35-91) as a function
of the request URL and the AI-backend outcome, returning the HTTP status
and the response body.  A falsy `url` (modelled: the empty string) is
rejected with 400 before the AI is called. -/
def serverHandler (url : String) (ai : AIOutcome) : Nat × RespBody :=
  if url = "" then (400, RespBody.none5)
  else
    match ai with
    | .throws => (500, serverFallbackBody)
    | .badJson => (500, serverFallbackBody)
    | .emptyText => (200, successBody ⟨none, none, none, none⟩)
    | .json d => (200, successBody d)

/-- The fixed degraded-mode record of the Assessment Client's catch
branch (services/gemini.ts lines 19-27). Note the indicator reads
"network error". -/
def clientFallbackBody : RespBody :=
  { riskScore := some 50
    riskLevel := some .suspicious
    indicators := some ["Analysis failed due to network error"]
    recommendation := some "Proceed with extreme caution. Manual verification required."
    analysis := some "We were unable to complete the AI-powered deep scan at this time." }

/-- Outcome of `response.json()` on the client: the body is not valid
JSON, or it parses to a ScanResult-shaped record. -/
inductive BodyParse
  | malformed
  | parsed (b : RespBody)
deriving DecidableEq

/-- Outcome of the client's `fetch` call: the transport throws, or an
HTTP response arrives with a status and a body. -/
inductive FetchOutcome
  | transportError
  | response (status : Nat) (body : BodyParse)
deriving DecidableEq

/-- `Response.ok`: status in the inclusive-exclusive range [200, 300). -/
def httpOk (s : Nat) : Bool := decide (200 ≤ s) && decide (s < 300)

/-- The Assessment Client `analyzeUrl` (services/gemini.ts lines 3-28) as
a function of the fetch outcome.  A transport throw, a non-ok status
(the explicit `throw` at line 14) and a malformed body (a throw from
`response.json()`) all land in the catch branch, which returns the fixed
degraded-mode record; the function is total, so no exception reaches the
caller. -/
def analyzeUrl (f : FetchOutcome) : RespBody :=
  match f with
  | .transportError => clientFallbackBody
  | .response s b =>
    if httpOk s then
      match b with
      | .malformed => clientFallbackBody
      | .parsed r => r
    else clientFallbackBody

/-- End-to-end network outcome of one scan: the client's fetch never
reaches the server, or the server runs with a given AI outcome. -/
inductive NetOutcome
  | transportError
  | serverReached (ai : AIOutcome)
deriving DecidableEq

/-- The fetch outcome the client observes for a given network outcome:
the server always answers with well-formed JSON (`res.json`), so a
reached server yields a parsed body. -/
def fetchOf (url : String) : NetOutcome → FetchOutcome
  | .transportError => .transportError
  | .serverReached ai => .response (serverHandler url ai).1 (.parsed (serverHandler url ai).2)

/-- The partial record `await analyzeUrl(url)` hands to `handleScan`. -/
def clientVisible (url : String) (n : NetOutcome) : RespBody :=
  analyzeUrl (fetchOf url n)

/-- The ScanResult built by `handleScan` from the assessment response
(App.tsx lines 129-138): each missing field is replaced through JS
falsy-coalescing.  Every RiskLevel string is nonempty whence truthy, and
arrays are truthy even when empty, so those two defaults are plain
`Option.getD`. -/
def mkScanResult (freshId : String) (now : Int) (url : String) (a : RespBody) :
    ScanResult :=
  { id := freshId
    url := url
    timestamp := now
    riskScore := jsOrNum a.riskScore 0
    riskLevel := a.riskLevel.getD .suspicious
    indicators := a.indicators.getD []
    recommendation := jsOrStr a.recommendation ""
    analysis := jsOrStr a.analysis "" }

/-- The synthetic result for a previously blocked URL
(App.tsx lines 105-114). -/
def blockedResult (url : String) (now : Int) : ScanResult :=
  { id := "blocked-" ++ toString now
    url := url
    timestamp := now
    riskScore := 100
    riskLevel := .highRisk
    indicators := ["This URL was previously blocked due to high security risks."]
    recommendation := "Do not attempt to access this URL."
    analysis := "Automatically blocked by SecureScan AI protection system." }

/-- First-occurrence deduplication, keeping insertion order: the list
read back from a JS `new Set`. -/
def jsSetDedupAux (seen : List String) : List String → List String
  | [] => []
  | x :: xs =>
    if x ∈ seen then jsSetDedupAux seen xs
    else x :: jsSetDedupAux (x :: seen) xs

/-- The spread of a JS Set built from a list. -/
def jsSetDedup (l : List String) : List String := jsSetDedupAux [] l

/-- The scan pipeline `handleScan` (App.tsx lines 102-154) on an app
state, parameterised by the network outcome `n` consumed if and when the
Assessment Client is called, the fresh random id and the current time.
Returns the new state and whether `analyzeUrl` was invoked.  The screen
transitions to `result` on both branches (the intermediate `scanning`
busy state is display only). -/
def handleScan (st : AppState) (url : String) (n : NetOutcome)
    (freshId : String) (now : Int) : AppState × Bool :=
  if url ∈ st.blockedUrls then
    ({ st with screen := .result, currentResult := some (blockedResult url now) },
     false)
  else
    let newResult := mkScanResult freshId now url (clientVisible url n)
    ({ st with
        screen := .result
        currentResult := some newResult
        history := (newResult :: st.history).take 50
        blockedUrls :=
          if newResult.riskLevel = RiskLevel.highRisk then
            jsSetDedup (st.blockedUrls ++ [url])
          else st.blockedUrls },
     true)

/-- The history update of `handleScan` in isolation (App.tsx line 146):
prepend the new result and truncate to the 50 most recent. -/
def record (r : ScanResult) (h : List ScanResult) : List ScanResult :=
  (r :: h).take 50

/-- Recording a sequence of results in order, oldest first. -/
def recordAll (rs : List ScanResult) (h : List ScanResult) : List ScanResult :=
  rs.foldl (fun acc r => record r acc) h

/-- One persisted key as the rehydration code observes it: absent from
storage, present but unparsable (`JSON.parse` throws), or parsed to a
value. -/
inductive Stored (α : Type)
  | absent
  | unparsable
  | parsable (v : α)
deriving DecidableEq

/-- Startup rehydration (App.tsx lines 75-92): the history key is read
and parsed first, then the blocked key; a parse throw from either lands
in the catch branch, which resets both components to the empty array.
An absent key is replaced by the empty array by the ternary without
parsing.  Every branch yields the home screen. -/
def loadState (hk : Stored (List ScanResult)) (bk : Stored (List String)) :
    AppState :=
  match hk, bk with
  | .unparsable, _ => ⟨.home, none, [], []⟩
  | _, .unparsable => ⟨.home, none, [], []⟩
  | .absent, .absent => ⟨.home, none, [], []⟩
  | .absent, .parsable b => ⟨.home, none, [], b⟩
  | .parsable h, .absent => ⟨.home, none, h, []⟩
  | .parsable h, .parsable b => ⟨.home, none, h, b⟩

/-- C1: scanning a URL already in `blockedUrls` yields a current result
with riskScore 100, riskLevel high-risk and the fixed blocked indicator,
does not invoke the Assessment Client, leaves the history untouched and
leaves `blockedUrls` unchanged. -/
theorem handleScan_blocked_short_circuits (st : AppState) (url : String)
    (n : NetOutcome) (freshId : String) (now : Int)
    (hb : url ∈ st.blockedUrls) :
    (handleScan st url n freshId now).2 = false ∧
    (∃ r, (handleScan st url n freshId now).1.currentResult = some r ∧
      r.riskScore = 100 ∧ r.riskLevel = .highRisk ∧
      r.indicators =
        ["This URL was previously blocked due to high security risks."]) ∧
    (handleScan st url n freshId now).1.history = st.history ∧
    (handleScan st url n freshId now).1.blockedUrls = st.blockedUrls := by
  refine ⟨?_, ⟨blockedResult url now, ?_, rfl, rfl, rfl⟩, ?_, ?_⟩ <;>
    simp [handleScan, hb]

/-- Witness for C1 at a concrete blocked state. -/
theorem handleScan_blocked_short_circuits_witness :
    (handleScan ⟨.home, none, [], ["http://evil.example"]⟩
        "http://evil.example" .transportError "x" 7).2 = false ∧
    (∃ r, (handleScan ⟨.home, none, [], ["http://evil.example"]⟩
        "http://evil.example" .transportError "x" 7).1.currentResult = some r ∧
      r.riskScore = 100 ∧ r.riskLevel = .highRisk ∧
      r.indicators =
        ["This URL was previously blocked due to high security risks."]) ∧
    (handleScan ⟨.home, none, [], ["http://evil.example"]⟩
        "http://evil.example" .transportError "x" 7).1.history = [] ∧
    (handleScan ⟨.home, none, [], ["http://evil.example"]⟩
        "http://evil.example" .transportError "x" 7).1.blockedUrls =
      ["http://evil.example"] :=
  handleScan_blocked_short_circuits ⟨.home, none, [], ["http://evil.example"]⟩
    "http://evil.example" .transportError "x" 7 (by decide)

/-- C6: the Assessment Client returns exactly the fixed degraded-mode
record on a transport throw, on any non-ok HTTP status, and on a
malformed response body; being a total function of the fetch outcome, it
never propagates an exception. -/
theorem analyzeUrl_failure_fallback :
    analyzeUrl .transportError = clientFallbackBody ∧
    (∀ s b, httpOk s = false → analyzeUrl (.response s b) = clientFallbackBody) ∧
    (∀ s, analyzeUrl (.response s .malformed) = clientFallbackBody) := by
  refine ⟨rfl, fun s b h => ?_, fun s => ?_⟩
  · simp [analyzeUrl, h]
  · by_cases h : httpOk s <;> simp [analyzeUrl, h]

/-- Witness for C6 at a 500 response. -/
theorem analyzeUrl_failure_fallback_witness :
    analyzeUrl (.response 500 (.parsed RespBody.none5)) = clientFallbackBody :=
  analyzeUrl_failure_fallback.2.1 500 (.parsed RespBody.none5) (by decide)

/-- C7: the ScanResult constructed from an assessment response
substitutes the fixed defaults for each missing field: riskScore 0,
riskLevel suspicious, indicators empty, recommendation and analysis the
empty string. -/
theorem mkScanResult_defaults (freshId : String) (now : Int) (url : String)
    (b : RespBody) :
    (b.riskScore = none → (mkScanResult freshId now url b).riskScore = 0) ∧
    (b.riskLevel = none →
      (mkScanResult freshId now url b).riskLevel = .suspicious) ∧
    (b.indicators = none → (mkScanResult freshId now url b).indicators = []) ∧
    (b.recommendation = none →
      (mkScanResult freshId now url b).recommendation = "") ∧
    (b.analysis = none → (mkScanResult freshId now url b).analysis = "") := by
  refine ⟨fun h => ?_, fun h => ?_, fun h => ?_, fun h => ?_, fun h => ?_⟩ <;>
    simp [mkScanResult, jsOrNum, jsOrStr, h]

/-- Witness for C7 at the all-absent body. -/
theorem mkScanResult_defaults_witness :
    (mkScanResult "x" 0 "u" RespBody.none5).riskScore = 0 ∧
    (mkScanResult "x" 0 "u" RespBody.none5).riskLevel = .suspicious ∧
    (mkScanResult "x" 0 "u" RespBody.none5).indicators = [] ∧
    (mkScanResult "x" 0 "u" RespBody.none5).recommendation = "" ∧
    (mkScanResult "x" 0 "u" RespBody.none5).analysis = "" :=
  ⟨(mkScanResult_defaults "x" 0 "u" RespBody.none5).1 rfl,
   (mkScanResult_defaults "x" 0 "u" RespBody.none5).2.1 rfl,
   (mkScanResult_defaults "x" 0 "u" RespBody.none5).2.2.1 rfl,
   (mkScanResult_defaults "x" 0 "u" RespBody.none5).2.2.2.1 rfl,
   (mkScanResult_defaults "x" 0 "u" RespBody.none5).2.2.2.2 rfl⟩

/-- C10: rehydration always lands on the home screen with well-defined
components, and a key that is absent or unparsable leaves its component
initialized to the empty array. -/
theorem loadState_defaults (hk : Stored (List ScanResult))
    (bk : Stored (List String)) :
    (loadState hk bk).screen = .home ∧
    (hk = .absent ∨ hk = .unparsable → (loadState hk bk).history = []) ∧
    (bk = .absent ∨ bk = .unparsable → (loadState hk bk).blockedUrls = []) := by
  cases hk <;> cases bk <;> simp [loadState]

/-- Witness for C10 with an absent history key and a corrupt blocked
key. -/
theorem loadState_defaults_witness :
    (loadState (Stored.absent) (Stored.unparsable)).screen = .home ∧
    (loadState (Stored.absent) (Stored.unparsable)).history = [] ∧
    (loadState (Stored.absent) (Stored.unparsable)).blockedUrls = [] :=
  ⟨(loadState_defaults .absent .unparsable).1,
   (loadState_defaults .absent .unparsable).2.1 (Or.inl rfl),
   (loadState_defaults .absent .unparsable).2.2 (Or.inr rfl)⟩

/-- C3: every ScanResult the pipeline installs as the current result has
a riskLevel equal to the classifier applied to its riskScore — on the
server success path, on the client defaults path, on both degraded-mode
fallbacks, and even on the synthetic previously-blocked path (where the
overridden pair 100 / high-risk happens to agree with the classifier as
well). -/
theorem handleScan_riskLevel_consistent (st : AppState) (url : String)
    (n : NetOutcome) (freshId : String) (now : Int) (r : ScanResult)
    (h : (handleScan st url n freshId now).1.currentResult = some r) :
    r.riskLevel = Utils.getRiskLevel r.riskScore := by
  by_cases hb : url ∈ st.blockedUrls
  · simp [handleScan, hb] at h
    subst h
    simp [blockedResult, Utils.getRiskLevel]
  · simp [handleScan, hb] at h
    subst h
    cases n with
    | transportError =>
      simp [mkScanResult, clientVisible, fetchOf, analyzeUrl,
        clientFallbackBody, jsOrNum, Utils.getRiskLevel]
    | serverReached ai =>
      by_cases hu : url = "" <;>
        cases ai <;>
          simp [mkScanResult, clientVisible, fetchOf, serverHandler, hu,
            analyzeUrl, httpOk, successBody, clientFallbackBody, jsOrNum,
            Utils.getRiskLevel, Server.getRiskLevel]

/-- Witness for C3 at a concrete blocked scan. -/
theorem handleScan_riskLevel_consistent_witness :
    (blockedResult "u" 0).riskLevel =
      Utils.getRiskLevel (blockedResult "u" 0).riskScore :=
  handleScan_riskLevel_consistent ⟨.home, none, [], ["u"]⟩ "u"
    .transportError "x" 0 (blockedResult "u" 0) (by decide)

/-- Counterexample to C4 as stated: on an AI-backend throw the server
body is not field-for-field the client degraded-mode payload — the
indicator strings differ ("server error" vs "network error"). -/
theorem serverFallback_ne_clientFallback :
    (serverHandler "http://example.com" AIOutcome.throws).2 ≠
      clientFallbackBody ∧
    (serverHandler "http://example.com" AIOutcome.throws).2.indicators =
      some ["Analysis failed due to server error"] ∧
    clientFallbackBody.indicators =
      some ["Analysis failed due to network error"] := by
  refine ⟨by decide, rfl, rfl⟩

/-- C4 as amended: when the AI call throws or its output is unparsable,
the service responds 500 with a body that matches the client fallback in
riskScore, riskLevel, recommendation and analysis, but whose single
indicator reads "Analysis failed due to server error" instead of
"network error". -/
theorem serverHandler_ai_failure (url : String) (ai : AIOutcome)
    (hu : url ≠ "") (hai : ai = .throws ∨ ai = .badJson) :
    serverHandler url ai = (500, serverFallbackBody) ∧
    serverFallbackBody.riskScore = clientFallbackBody.riskScore ∧
    serverFallbackBody.riskLevel = clientFallbackBody.riskLevel ∧
    serverFallbackBody.recommendation = clientFallbackBody.recommendation ∧
    serverFallbackBody.analysis = clientFallbackBody.analysis ∧
    serverFallbackBody.indicators =
      some ["Analysis failed due to server error"] := by
  rcases hai with rfl | rfl <;>
    exact ⟨by simp [serverHandler, hu], rfl, rfl, rfl, rfl, rfl⟩

/-- Witness for the amended C4 at a throwing AI call. -/
theorem serverHandler_ai_failure_witness :
    serverHandler "http://example.com" AIOutcome.throws =
      (500, serverFallbackBody) :=
  (serverHandler_ai_failure "http://example.com" .throws (by decide)
    (Or.inl rfl)).1

/-- Counterexample to C5 as stated: an empty AI-backend body does not
produce the degraded-mode literal — the server parses it as the empty
object and replies 200, so the client-visible record carries
riskLevel safe. -/
theorem emptyBody_not_degraded :
    clientVisible "http://example.com" (.serverReached .emptyText) ≠
      clientFallbackBody ∧
    (mkScanResult "id" 0 "http://example.com"
      (clientVisible "http://example.com"
        (.serverReached .emptyText))).riskLevel = .safe := by
  decide

/-- C5 as amended: when the backend body is present but unparsable the
client-visible record equals the degraded-mode literal; when the body is
empty it is parsed as the empty object and, for a nonempty url, the
constructed record is the all-defaults record with riskScore 0 and
riskLevel safe — not the degraded literal. -/
theorem clientVisible_malformed_vs_empty (url freshId : String) (now : Int)
    (hu : url ≠ "") :
    clientVisible url (.serverReached .badJson) = clientFallbackBody ∧
    mkScanResult freshId now url
        (clientVisible url (.serverReached .emptyText)) =
      ⟨freshId, url, now, 0, .safe, [], "", ""⟩ := by
  constructor
  · simp [clientVisible, fetchOf, serverHandler, hu, analyzeUrl, httpOk]
  · simp [clientVisible, fetchOf, serverHandler, hu, analyzeUrl, httpOk,
      mkScanResult, successBody, jsOrNum, jsOrStr, Server.getRiskLevel]

/-- Witness for the amended C5 at a concrete url. -/
theorem clientVisible_malformed_vs_empty_witness :
    clientVisible "http://example.com" (.serverReached .badJson) =
      clientFallbackBody ∧
    mkScanResult "id" 0 "http://example.com"
        (clientVisible "http://example.com" (.serverReached .emptyText)) =
      ⟨"id", "http://example.com", 0, 0, .safe, [], "", ""⟩ :=
  clientVisible_malformed_vs_empty "http://example.com" "id" 0 (by decide)

/-- Truncating after an append absorbs an inner truncation to the same
bound. -/
theorem take_append_take {α : Type} (A B : List α) (n : Nat) :
    (A ++ B.take n).take n = (A ++ B).take n := by
  rw [List.take_append_eq_append_take, List.take_append_eq_append_take,
    List.take_take]
  rw [Nat.min_eq_left (Nat.sub_le n A.length)]

/-- Closed form of repeated recording: the reversed insertion order in
front of the starting history, truncated to the bound. -/
theorem recordAll_eq (rs : List ScanResult) (h : List ScanResult)
    (hh : h.length ≤ 50) :
    recordAll rs h = (rs.reverse ++ h).take 50 := by
  induction rs generalizing h with
  | nil => simpa [recordAll] using (List.take_of_length_le hh).symm
  | cons x xs ih =>
    show recordAll xs (record x h) = ((x :: xs).reverse ++ h).take 50
    rw [ih (record x h) (by simp [record])]
    simp only [record, List.reverse_cons, List.append_assoc,
      List.singleton_append]
    exact take_append_take _ _ _

/-- C8: recording places the new result first; the history never exceeds
50 entries; and after recording 51 results into an empty history the
oldest of them (assumed not re-recorded later, so that absence is
observable by value) is gone while exactly 50 remain. -/
theorem history_record_bounded :
    (∀ (r : ScanResult) (h : List ScanResult), (record r h).head? = some r) ∧
    (∀ (r : ScanResult) (h : List ScanResult), (record r h).length ≤ 50) ∧
    (∀ (r : ScanResult) (rs : List ScanResult), rs.length = 50 → r ∉ rs →
      (recordAll rs (record r [])).length = 50 ∧
      r ∉ recordAll rs (record r [])) := by
  refine ⟨fun r h => rfl, fun r h => ?_, fun r rs h50 hr => ?_⟩
  · simp [record]
  · have hrw : recordAll rs (record r []) = rs.reverse := by
      rw [recordAll_eq rs (record r []) (by simp [record])]
      have t1 : rs.reverse.take 50 = rs.reverse :=
        List.take_of_length_le (by simp [h50])
      have t2 : (record r []).take (50 - rs.reverse.length) = [] := by
        simp [h50, record]
      rw [List.take_append_eq_append_take, t1, t2, List.append_nil]
    rw [hrw]
    exact ⟨by simp [h50], by simpa using hr⟩

/-- A sample result, distinguished by its timestamp. -/
def sampleResult (i : Int) : ScanResult :=
  ⟨"id", "u", i, 0, .safe, [], "", ""⟩

/-- Fifty pairwise distinct sample results. -/
def sampleHistory : List ScanResult :=
  (List.range 50).map fun i => sampleResult i

/-- Witness for C8: 51 concrete insertions into an empty history evict
the oldest one. -/
theorem history_record_bounded_witness :
    (sampleHistory.length = 50 ∧ sampleResult 50 ∉ sampleHistory) ∧
    (recordAll sampleHistory (record (sampleResult 50) [])).length = 50 ∧
    sampleResult 50 ∉ recordAll sampleHistory (record (sampleResult 50) []) :=
  ⟨⟨by decide, by decide⟩,
   history_record_bounded.2.2 (sampleResult 50) sampleHistory
     (by decide) (by decide)⟩
